import Mathlib

/-!
Shallow embedding of the core of the Kaspa HD wallet
(file wallet/wallet.ts) together with proofs of specification
claims about it. External collaborators (kaspacore transactions, the
UTXO set, the address manager, the RPC client, the hash helper) enter
as explicit function parameters; the control flow and arithmetic
written here is translated from the TypeScript source. Recursion in
the source (address discovery, the fee-convergence loop) is modelled
with an explicit fuel argument; a result of none means the fuel ran
out, so any theorem about a some-result speaks about a terminating
run of the source loop.
-/

namespace KaspaWallet

/-! ### Address discovery, Wallet.addressDiscovery (wallet.ts lines 598-649) -/

/-- One recursive scan of the inner closure doDiscovery(n, deriveType, offset)
of Wallet.addressDiscovery. The predicate activity i = true models
"the address at chain index i has UTXOs", which is what findUtxos
reports for the derived window. The index layout of
AddressManager.getAddresses(n, kind, offset) - absolute indices
offset, offset+1, ..., offset+n-1 - is taken from the specification
because address-manager.ts is not among the sources; all control flow
and arithmetic below is from wallet.ts. If no address of the window is
active the source returns offset - (threshold - n) - 1; otherwise it
recurses with window size max(active indices, 0) + 1 at offset + n. -/
def doDiscovery (activity : Nat → Bool) (threshold : Nat) :
    Nat → Nat → Nat → Option Int
  | 0, _, _ => none
  | fuel + 1, n, offset =>
    let window := (List.range n).map (fun i => offset + i)
    let activeIdxs := window.filter activity
    if activeIdxs.isEmpty then
      some ((offset : Int) - ((threshold : Int) - (n : Int)) - 1)
    else
      let nAddressesLeft := activeIdxs.foldl Nat.max 0 + 1
      doDiscovery activity threshold fuel nAddressesLeft (offset + n)

/-- Wallet.addressDiscovery runs doDiscovery on the receive chain and then
on the change chain, both starting with window size threshold at
offset 0, and then calls receiveAddress.advance(highestReceiveIndex+1)
and changeAddress.advance(highestChangeIndex+1). The returned pair is
the pair of arguments passed to the two advance calls. -/
def addressDiscovery (activityReceive activityChange : Nat → Bool)
    (threshold fuel : Nat) : Option (Int × Int) :=
  match doDiscovery activityReceive threshold fuel threshold 0,
        doDiscovery activityChange threshold fuel threshold 0 with
  | some hr, some hc => some (hr + 1, hc + 1)
  | _, _ => none

/-! ### Wallet uid, Wallet.createUID (wallet.ts lines 253-257) -/

/-- One component of a BIP44-style derivation path: a child index plus
whether the derivation step is hardened. -/
structure PathSeg where
  childIndex : Nat
  hardened : Bool
deriving DecidableEq, Repr

/-- The derivation path used by Wallet.createUID. The source string is
m/44h/972/0h/1h/0h (writing h for the hardened tick): the 972
component carries no hardened marker in the source. -/
def createUIDPath : List PathSeg :=
  [⟨44, true⟩, ⟨972, false⟩, ⟨0, true⟩, ⟨1, true⟩, ⟨0, true⟩]

/-- Modelled from the spec: the path the specification ascribes to the
wallet uid, m/44h/972h/0h/1h/0h, with every component hardened. -/
def specUIDPath : List PathSeg :=
  [⟨44, true⟩, ⟨972, true⟩, ⟨0, true⟩, ⟨1, true⟩, ⟨0, true⟩]

/-- JavaScript String.split on a single separator character: the list of
maximal separator-free chunks, empty chunks included. -/
def splitOnChar (c : Char) : List Char → List (List Char)
  | [] => [[]]
  | x :: xs =>
    let r := splitOnChar c xs
    if x = c then [] :: r
    else
      match r with
      | [] => [[x]]
      | y :: ys => (x :: y) :: ys

/-- The source strips the network prefix of the rendered address with
toString().split(":")[1]; the [1] of an absent second chunk is
modelled as the empty string. -/
def stripAddressHrp (s : String) : String :=
  String.mk ((splitOnChar ':' s.data).getD 1 [])

/-- Wallet.createUID: derive the child private key at createUIDPath,
render it as an address on the current network, strip the network
prefix, and hash the remainder. Key derivation, address rendering and
the hash helper are external collaborators and enter as parameters. -/
def createUID {K N : Type} (deriveChild : List PathSeg → K)
    (toAddress : K → N → String) (createHash : String → String)
    (network : N) : String :=
  createHash (stripAddressHrp (toAddress (deriveChild createUIDPath) network))

/-- Modelled from the spec: the uid computation as the specification
words it, identical to createUID except that it derives at the fully
hardened auxiliary path. Used only to compare against the source. -/
def createUIDSpec {K N : Type} (deriveChild : List PathSeg → K)
    (toAddress : K → N → String) (createHash : String → String)
    (network : N) : String :=
  createHash (stripAddressHrp (toAddress (deriveChild specUIDPath) network))

/-! ### Transaction composition, Wallet.composeTx (wallet.ts lines 662-725) -/

/-- Result shape of UtxoSet.selectUtxos / UtxoSet.collectUtxos as consumed
by composeTx (the UTXO set lives outside the sources, so selection is
abstract). -/
structure SelRes (U : Type) where
  utxos : List U
  utxoIds : List String
  amount : Int
  mass : Int

/-- The fields of the ComposeTxInfo record returned by composeTx that the
claims mention. -/
structure ComposeOut (U T : Type) where
  tx : T
  utxoIds : List String
  amount : Int
  fee : Int
  toAddr : String
  utxos : List U

/-- Calls composeTx makes on the change-address chain, in order. -/
inductive ChainOp where
  | nextOp
  | reverseOp
deriving DecidableEq, Repr

/-- JavaScript truthiness of the optional changeAddrOverride string: an
absent value and the empty string are falsy. -/
def jsTruthy (s : Option String) : Bool :=
  match s with
  | none => false
  | some a => a ≠ ""

/-- Wallet.composeTx after the parseInt step (see jsParseInt below for
that step): select UTXOs (or collect them when compounding), pick the
change address - changeAddrOverride when truthy, otherwise
changeAddress.next() - assemble and optionally sign the kaspacore
transaction, and on a failure of that try-block call
changeAddress.reverse() when no truthy override was given, then
rethrow. The second component of the result is the exact list of
calls made on the change-address chain. -/
def composeTx {U T : Type}
    (select : Int → Except String (SelRes U))
    (collect : Nat → Except String (SelRes U))
    (assemble : List U → String → Int → Int → String → Except String T)
    (toAddr : String) (amount fee : Int)
    (changeAddrOverride : Option String) (nextAddr : String)
    (compounding : Bool) (maxCount : Nat) :
    Except String (ComposeOut U T) × List ChainOp :=
  match (if compounding then collect maxCount else select (amount + fee)) with
  | Except.error e => (Except.error e, [])
  | Except.ok s =>
    let amt := if compounding then s.amount else amount
    let useNext := !(jsTruthy changeAddrOverride)
    let changeAddr := if useNext then nextAddr else changeAddrOverride.getD ""
    let ops := if useNext then [ChainOp.nextOp] else []
    match assemble s.utxos toAddr amt fee changeAddr with
    | Except.ok t =>
      (Except.ok { tx := t, utxoIds := s.utxoIds, amount := amt, fee := fee,
                   toAddr := toAddr, utxos := s.utxos }, ops)
    | Except.error e =>
      (Except.error e, ops ++ (if useNext then [ChainOp.reverseOp] else []))

/-! ### The parseInt step of composeTx (wallet.ts lines 673-684) -/

/-- A JavaScript value passed as amount or fee: an integral number or a
string. A num n stands for an integral IEEE-754 binary64 number, so
only values with flDouble n = n denote actual JavaScript numbers, and
the plain decimal rendering the parse model assumes additionally
requires the magnitude to stay below 10^21 (above that JavaScript
renders exponentially and parseInt sees only the leading digits, as
the string counterexample shows); the theorems quantify over that
domain. -/
inductive JSVal where
  | num (n : Int)
  | str (s : String)
deriving DecidableEq, Repr

/-- Decimal value of a list of digit characters. -/
def digitsValue (cs : List Char) : Nat :=
  cs.foldl (fun acc c => 10 * acc + (c.toNat - 48)) 0

/-- 2^53: every integer of magnitude up to this bound is exactly
representable as an IEEE-754 binary64 value. -/
def twoPow53 : Nat := 9007199254740992

/-- Number of binary digits of a natural number, with an explicit fuel
bound of 2048 bits, far beyond any magnitude the model meets. -/
def bitLenFuel : Nat → Nat → Nat
  | 0, _ => 0
  | fuel + 1, n => if n = 0 then 0 else bitLenFuel fuel (n / 2) + 1

/-- Number of binary digits: bitLen a = floor(log2 a) + 1 for a > 0. -/
def bitLen (n : Nat) : Nat := bitLenFuel 2048 n

/-- Round an integer to the nearest IEEE-754 binary64 value (round to
nearest, ties to even). Magnitudes up to 2^53 are exact; above that
the bits below the 53-bit significand are rounded away, so for
example flDouble (10^16 + 1) = 10^16, as 1e16 + 1 === 1e16 in
JavaScript. Overflow to infinity, near magnitude 2^1024, is outside
the modelled range. -/
def flDouble (x : Int) : Int :=
  let a := x.natAbs
  if a ≤ twoPow53 then x
  else
    let k := bitLen a - 53
    let q := a / 2 ^ k
    let r := a % 2 ^ k
    let half := 2 ^ (k - 1)
    let q2 := if half < r ∨ (r = half ∧ q % 2 = 1) then q + 1 else q
    if x < 0 then -((q2 * 2 ^ k : Nat) : Int) else ((q2 * 2 ^ k : Nat) : Int)

/-- JavaScript + on two integral numbers: the exact sum rounded to the
nearest double. -/
def jsAdd (a b : Int) : Int := flDouble (a + b)

/-- ECMAScript parseInt on a string with no radix argument (the hex 0x
branch, not exercised by the wallet, is omitted): trim whitespace,
read an optional sign, take the longest prefix of decimal digits; the
mathematical integer those digits denote is returned as a Number,
i.e. rounded to the nearest double; none models NaN. -/
def jsParseIntStr (s : String) : Option Int :=
  let cs := s.data.dropWhile (fun c => c.isWhitespace)
  match cs with
  | '-' :: rest =>
    let ds := rest.takeWhile (fun c => c.isDigit)
    if ds.isEmpty then none else some (flDouble (-(digitsValue ds : Int)))
  | '+' :: rest =>
    let ds := rest.takeWhile (fun c => c.isDigit)
    if ds.isEmpty then none else some (flDouble ((digitsValue ds : Int)))
  | rest =>
    let ds := rest.takeWhile (fun c => c.isDigit)
    if ds.isEmpty then none else some (flDouble ((digitsValue ds : Int)))

/-- parseInt as applied by composeTx to its amount and fee arguments. On a
number, parseInt renders it and parses the rendering: for an integral
double with plain decimal rendering (flDouble n = n and magnitude
below 10^21, the documented domain of JSVal.num) that returns the
number itself, normalized here through flDouble. -/
def jsParseInt : JSVal → Option Int
  | JSVal.num n => some (flDouble n)
  | JSVal.str s => jsParseIntStr s

/-- The target amount composeTx hands to utxoSet.selectUtxos: composeTx
reassigns amount = parseInt(amount) and fee = parseInt(fee) and then
selects for amount + fee, a JavaScript double addition; none models
the NaN case. -/
def composeTxSelectionTarget (amount fee : JSVal) : Option Int :=
  match jsParseInt amount, jsParseInt fee with
  | some a, some f => some (jsAdd a f)
  | _, _ => none

/-! ### Fee estimation, Wallet.estimateTransaction (wallet.ts lines 735-824) -/

/-- What estimateTransaction reads off one composeTx result: the (possibly
collect-adjusted) amount, the length of tx.toBuffer(skipSign), and
tx.inputs.length. -/
structure ComposeRes where
  amount : Int
  rawSize : Nat
  numInputs : Nat
deriving DecidableEq, Repr

/-- The calibrated transaction size: the serialized length plus 151 bytes
per input when unsigned, minus 2 bytes per input when signed. -/
def calibratedSize (skipSign : Bool) (d : ComposeRes) : Int :=
  if skipSign then (d.rawSize : Int) + 151 * (d.numInputs : Int)
  else (d.rawSize : Int) - 2 * (d.numInputs : Int)

/-- The inputs of estimateTransaction that the claims depend on, after the
falsy fee has been defaulted to 0 and the flags have been coerced with
the double negation of the source. -/
structure EstimateParams where
  amount : Int
  fee : Int
  networkFeeMax : Int
  calculateNetworkFee : Bool
  inclusiveFee : Bool
  compounding : Bool
  skipSign : Bool
deriving DecidableEq, Repr

/-- Errors thrown by estimateTransaction and buildTransaction. A failure
inside composeTx (insufficient funds and the like) propagates as
composeFailed. -/
inductive TxError where
  | composeFailed
  | feeMaxPreCheck
  | feeMaxExceeded
  | minimumFeeRequired
  | massLimit
deriving DecidableEq, Repr

/-- The fields of the returned TxInfo that the claims mention: fee and
amount are the final txParams values echoed by the last composeTx,
dataFee, totalAmount and txSize are set by estimateTransaction after
its branches. -/
structure EstimateOut where
  fee : Int
  amount : Int
  txSize : Int
  dataFee : Int
  totalAmount : Int
  numInputs : Nat
deriving DecidableEq, Repr

/-- The do-while fee-convergence loop of estimateTransaction. Each pass
sets txParams.fee = priorityFee + dataFee, rebuilds the amount when
inclusiveFee, recomposes, recomputes the calibrated size and the data
fee, and repeats while (networkFeeMax is unset or fee does not exceed
it) and fee < dataFee + priorityFee; on leaving the loop the source
throws when networkFeeMax is set and exceeded. composeTx is abstract
(it consumes the live UTXO set) and is called with the compounding
flag already cleared, as the source clears it before the loop. -/
def feeLoop (compose : Bool → Int → Int → Option ComposeRes) (defaultFee : Int)
    (skipSign inclusiveFee : Bool) (networkFeeMax priorityFee txAmount : Int) :
    Nat → Int → Int → Option (Except TxError EstimateOut)
  | 0, _, _ => none
  | fuel + 1, amountCur, dataFee =>
    let fee := priorityFee + dataFee
    let amountNext := if inclusiveFee then txAmount - fee else amountCur
    match compose false amountNext fee with
    | none => some (Except.error TxError.composeFailed)
    | some d =>
      let txSize := calibratedSize skipSign d
      let dataFeeNext := txSize * defaultFee
      if (networkFeeMax = 0 ∨ fee ≤ networkFeeMax) ∧ fee < dataFeeNext + priorityFee then
        feeLoop compose defaultFee skipSign inclusiveFee networkFeeMax priorityFee
          txAmount fuel amountNext dataFeeNext
      else if networkFeeMax ≠ 0 ∧ fee > networkFeeMax then
        some (Except.error TxError.feeMaxExceeded)
      else
        some (Except.ok { fee := fee, amount := amountNext, txSize := txSize,
                          dataFee := dataFeeNext, totalAmount := fee + amountNext,
                          numInputs := d.numInputs })

/-- Wallet.estimateTransaction: compose once, compute the calibrated size
and data fee, apply the compounding adjustments (compounding forces
inclusiveFee and calculateNetworkFee and replaces the amount with the
collected amount), run the networkFeeMax pre-check, then either run
the convergence loop, or throw minimumFeeRequired when the data fee
exceeds the priority fee, or recompose once with the fee taken out of
the amount when inclusiveFee, or return the first composition. -/
def estimateTransaction (compose : Bool → Int → Int → Option ComposeRes)
    (defaultFee : Int) (fuel : Nat) (p : EstimateParams) :
    Option (Except TxError EstimateOut) :=
  let priorityFee := p.fee
  match compose p.compounding p.amount priorityFee with
  | none => some (Except.error TxError.composeFailed)
  | some d0 =>
    let txSize0 := calibratedSize p.skipSign d0
    let dataFee0 := txSize0 * defaultFee
    let inclusiveFee := p.inclusiveFee || p.compounding
    let calcFee := p.calculateNetworkFee || p.compounding
    let txAmount := if p.compounding then d0.amount else p.amount
    if p.networkFeeMax ≠ 0 ∧ dataFee0 > p.networkFeeMax then
      some (Except.error TxError.feeMaxPreCheck)
    else if calcFee then
      feeLoop compose defaultFee p.skipSign inclusiveFee p.networkFeeMax priorityFee
        txAmount fuel txAmount dataFee0
    else if dataFee0 > priorityFee then
      some (Except.error TxError.minimumFeeRequired)
    else if inclusiveFee then
      match compose false (txAmount - priorityFee) priorityFee with
      | none => some (Except.error TxError.composeFailed)
      | some d1 =>
        some (Except.ok { fee := priorityFee, amount := txAmount - priorityFee,
                          txSize := txSize0, dataFee := dataFee0,
                          totalAmount := priorityFee + (txAmount - priorityFee),
                          numInputs := d1.numInputs })
    else
      some (Except.ok { fee := priorityFee, amount := txAmount, txSize := txSize0,
                        dataFee := dataFee0, totalAmount := priorityFee + txAmount,
                        numInputs := d0.numInputs })

/-! ### Wire construction, Wallet.buildTransaction (wallet.ts lines 834-957) -/

/-- One hex digit. -/
def hexDigit (n : Nat) : Char :=
  if n < 10 then Char.ofNat (48 + n) else Char.ofNat (87 + n)

/-- Lowercase hex rendering of a byte, as Buffer.toString("hex") yields. -/
def hexOfByte (b : Nat) : String :=
  String.mk [hexDigit (b / 16 % 16), hexDigit (b % 16)]

/-- Lowercase hex rendering of a byte buffer. -/
def hexOfBytes (bs : List Nat) : String :=
  String.join (bs.map hexOfByte)

/-- A signed kaspacore transaction input as buildTransaction reads it:
prevTxId and script are byte buffers, outputIndex and sequenceNumber
are numbers. -/
structure TxInputM where
  prevTxId : List Nat
  outputIndex : Nat
  script : List Nat
  sequenceNumber : Nat
deriving DecidableEq, Repr

/-- A signed kaspacore transaction output as buildTransaction reads it. -/
structure TxOutputM where
  satoshis : Int
  script : List Nat
deriving DecidableEq, Repr

/-- The signed kaspacore transaction after tx.sign: the mass field holds
the value of tx.getMass(), which is computed by the external
kaspacore library. -/
structure SignedTxM where
  version : Nat
  inputs : List TxInputM
  outputs : List TxOutputM
  nLockTime : Nat
  mass : Nat
deriving DecidableEq, Repr

/-- RPC wire outpoint. -/
structure RpcOutpoint where
  transactionId : String
  index : Nat
deriving DecidableEq, Repr

/-- RPC wire input. -/
structure RpcInput where
  previousOutpoint : RpcOutpoint
  signatureScript : String
  sequence : Nat
deriving DecidableEq, Repr

/-- RPC wire script-public-key pair. -/
structure RpcSpk where
  scriptPublicKey : String
  version : Nat
deriving DecidableEq, Repr

/-- RPC wire output. -/
structure RpcOutput where
  amount : Int
  scriptPublicKey : RpcSpk
deriving DecidableEq, Repr

/-- The transaction object of the SubmitTransactionRequest payload. -/
structure RpcTransaction where
  version : Nat
  inputs : List RpcInput
  outputs : List RpcOutput
  lockTime : Nat
  payloadHash : String
  subnetworkId : String
  fee : Int
deriving DecidableEq, Repr

/-- Wallet.MaxMassAcceptedByBlock (wallet.ts line 40). -/
def MaxMassAcceptedByBlock : Nat := 500000

/-- The input mapping of buildTransaction: previous outpoint, hex
signature script, sequence. -/
def toRpcInput (i : TxInputM) : RpcInput :=
  { previousOutpoint := { transactionId := hexOfBytes i.prevTxId,
                          index := i.outputIndex },
    signatureScript := hexOfBytes i.script,
    sequence := i.sequenceNumber }

/-- The output mapping of buildTransaction: satoshis plus a version-0 hex
script-public-key pair. -/
def toRpcOutput (o : TxOutputM) : RpcOutput :=
  { amount := o.satoshis,
    scriptPublicKey := { scriptPublicKey := hexOfBytes o.script, version := 0 } }

/-- The 64-character zero payload hash the source always sends. -/
def zeroPayloadHash : String :=
  String.mk (List.replicate 64 '0')

/-- Wallet.buildTransaction after tx.sign: check the signed mass against
MaxMassAcceptedByBlock and otherwise convert the signed transaction to
the RPC wire shape. Signing itself is the external kaspacore
library, so the model receives the signed transaction (with its mass)
and the fee of the converged estimate. -/
def buildTransaction (subnetworkId : String) (tx : SignedTxM) (fee : Int) :
    Except TxError RpcTransaction :=
  if tx.mass > MaxMassAcceptedByBlock then
    Except.error TxError.massLimit
  else
    Except.ok { version := tx.version,
                inputs := tx.inputs.map toRpcInput,
                outputs := tx.outputs.map toRpcOutput,
                lockTime := tx.nLockTime,
                payloadHash := zeroPayloadHash,
                subnetworkId := subnetworkId,
                fee := fee }

/-! ### Submission, Wallet.submitTransaction (wallet.ts lines 967-1010) -/

/-- The TXStore entry submitTransaction appends: txStore.add is given
in:false, the txid, amount, destination address, the note, the
current blueScore and whether the destination is our own address. -/
structure TxRecord where
  isIncoming : Bool
  id : String
  amount : Int
  address : String
  note : String
  blueScore : Int
  myAddress : Bool
deriving DecidableEq, Repr

/-- The wallet state submitTransaction touches: the inUse reservation list
of the UTXO set, the transaction store, and the list of emitted
events. -/
structure WalletTxState where
  inUse : List String
  txStore : List TxRecord
  events : List String
deriving DecidableEq, Repr

/-- Wallet.submitTransaction after buildTransaction produced the wire
payload and the spent utxoIds (the build was run with
skipUTXOInUseMark, so it did not touch inUse). The RPC call result is
abstract: an error models a rejected promise, ok none and ok "" model
a falsy txid. On a falsy txid the source returns null having changed
nothing; on a truthy txid it pushes the utxoIds onto inUse, appends
the TXStore record with the blueScore snapshot, and emits debug-info
(updateDebugInfo) and state-update (emitCache). A rejected promise is
rethrown by the catch block with nothing changed. -/
def submitTransaction (rpcSubmit : Except String (Option String))
    (utxoIds : List String) (amount : Int) (toAddr : String) (note : String)
    (blueScore : Int) (isOurAddress : Bool) (st : WalletTxState) :
    Except String (Option String × WalletTxState) :=
  match rpcSubmit with
  | Except.error e => Except.error e
  | Except.ok txid =>
    if jsTruthy txid then
      Except.ok (txid,
        { inUse := st.inUse ++ utxoIds,
          txStore := st.txStore ++
            [{ isIncoming := false, id := txid.getD "", amount := amount,
               address := toAddr, note := note, blueScore := blueScore,
               myAddress := isOurAddress }],
          events := st.events ++ [("debug-info"), ("state-update")] })
    else
      Except.ok (none, st)

/-! ### Sync guard, Wallet.sync (wallet.ts lines 291-311) -/

/-- The persistent flag this.syncOnce: undefined before the first sync
call, afterwards the effective flag of the last call. -/
structure SyncFlags where
  syncOnce : Option Bool
deriving DecidableEq, Repr

/-- The error message of the concurrent-sync guard. -/
def syncAlreadyRunningMsg : String :=
  "Wallet sync process already running."

/-- The guard phase of Wallet.sync: default an undefined request to
options.syncOnce and coerce it to a boolean; throw when the stored
this.syncOnce is exactly false (a continuous sync was started
earlier) and the effective request is one-shot; otherwise store the
effective flag. -/
def sync (optionsSyncOnce : Bool) (req : Option Bool) (st : SyncFlags) :
    Except String SyncFlags :=
  let so := req.getD optionsSyncOnce
  if st.syncOnce = some false ∧ so = true then
    Except.error syncAlreadyRunningMsg
  else
    Except.ok { syncOnce := some so }

/-! ## Theorems -/

/-- C1 (amended). For every gap-limit threshold and every window (size n,
starting at offset) of fresh indices, when the window contains no
address with UTXOs, discovery for that chain terminates and reports
the last active index as offset + n − threshold − 1, that is, the end
of the exhausted window minus threshold minus one (for the initial
window, where n = threshold, this is −1); and addressDiscovery then
advances each chain to its reported index plus one. -/
theorem addressDiscovery_window_exhausted
    (activity : Nat → Bool) (threshold fuel n offset : Nat)
    (h : ∀ i, i < n → activity (offset + i) = false) :
    doDiscovery activity threshold (fuel + 1) n offset
      = some ((offset : Int) + (n : Int) - (threshold : Int) - 1)
    ∧ ∀ aR aC f hr hc,
        doDiscovery aR threshold f threshold 0 = some hr →
        doDiscovery aC threshold f threshold 0 = some hc →
        addressDiscovery aR aC threshold f = some (hr + 1, hc + 1) := by
  constructor
  · have hfil : ((List.range n).map (fun i => offset + i)).filter activity = [] := by
      apply List.filter_eq_nil_iff.mpr
      intro a ha
      rcases List.mem_map.mp ha with ⟨i, hi, rfl⟩
      simp [h i (List.mem_range.mp hi)]
    simp only [doDiscovery, hfil, List.isEmpty_nil, if_true]
    congr 1
    omega
  · intro aR aC f hr hc h1 h2
    unfold addressDiscovery
    rw [h1, h2]

/-- Witness for C1: an entirely inactive initial window of size 3 reports
last active index 0 + 3 − 3 − 1 = −1. -/
theorem addressDiscovery_window_exhausted_witness :
    doDiscovery (fun _ => false) 3 1 3 0
      = some ((0 : Int) + (3 : Int) - (3 : Int) - 1) :=
  (addressDiscovery_window_exhausted (fun _ => false) 3 0 3 0
    (fun _ _ => rfl)).1

/-- Counterexample for C1 as stated. With threshold 2 and activity only at
index 0, the run reaches the window of size 1 starting at offset 2;
that window has no active address, yet the reported last active index
is 0, not offset − threshold − 1 = 2 − 2 − 1 = −1. -/
theorem addressDiscovery_offset_formula_cex :
    doDiscovery (fun i => decide (i = 0)) 2 10 2 0 = some 0
    ∧ doDiscovery (fun i => decide (i = 0)) 2 9 1 2 = some 0
    ∧ (fun i => decide (i = 0)) 2 = false
    ∧ (2 : Int) - 2 - 1 ≠ 0 := by
  refine ⟨by decide, by decide, by decide, by decide⟩

/-- C2 (amended). createUID derives the child private key at the fixed
auxiliary path m/44h/972/0h/1h/0h - the 972 component is NOT hardened
in the source, unlike the fully hardened path the claim states -
converts it to an address on the current network, strips the network
prefix, and returns a hash of that string; as a pure function of the
HD root (deriveChild) and the network, the uid is deterministic. -/
theorem createUID_path_and_hash {K N : Type} (deriveChild : List PathSeg → K)
    (toAddress : K → N → String) (createHash : String → String) (network : N) :
    createUID deriveChild toAddress createHash network
      = createHash (stripAddressHrp (toAddress (deriveChild createUIDPath) network))
    ∧ createUIDPath
      = [⟨44, true⟩, ⟨972, false⟩, ⟨0, true⟩, ⟨1, true⟩, ⟨0, true⟩] :=
  ⟨rfl, rfl⟩

/-- Witness for C2: a concrete instantiation of the collaborators. -/
theorem createUID_path_and_hash_witness :
    createUID (K := Unit) (N := Unit) (fun _ => ()) (fun _ _ => ("kaspa:x")) id ()
      = id (stripAddressHrp ("kaspa:x")) :=
  (createUID_path_and_hash (fun _ => ()) (fun _ _ => ("kaspa:x")) id ()).1

/-- Counterexample for C2 as stated: the source path differs from the
fully hardened path of the claim at the 972 component, and with
collaborators that distinguish the two paths the produced uid
differs from the uid derived at the claimed path. -/
theorem createUID_hardening_cex :
    createUIDPath ≠ specUIDPath
    ∧ createUID (K := List PathSeg) (N := Unit) id
        (fun p _ => if p = specUIDPath then ("hrp:spec") else ("hrp:code")) id ()
      = "code"
    ∧ createUIDSpec (K := List PathSeg) (N := Unit) id
        (fun p _ => if p = specUIDPath then ("hrp:spec") else ("hrp:code")) id ()
      = "spec"
    ∧ ("code" : String) ≠ ("spec" : String) := by
  refine ⟨by decide, by decide, by decide, by decide⟩

/-- C5 (confirmed). In a composeTx call without changeAddrOverride, a
selection failure aborts before any change-chain call, and a failure
of transaction assembly or signing after changeAddress.next() causes
exactly one changeAddress.reverse() before the error propagates: the
change-chain trace is [] in the first case and [next, reverse] in the
second. -/
theorem composeTx_reverse_on_failure {U T : Type}
    (select : Int → Except String (SelRes U))
    (collect : Nat → Except String (SelRes U))
    (assemble : List U → String → Int → Int → String → Except String T)
    (toAddr : String) (amount fee : Int) (nextAddr : String)
    (compounding : Bool) (maxCount : Nat) :
    (∀ e, (if compounding then collect maxCount else select (amount + fee))
            = Except.error e →
        composeTx select collect assemble toAddr amount fee none nextAddr
            compounding maxCount
          = (Except.error e, []))
    ∧ (∀ s e, (if compounding then collect maxCount else select (amount + fee))
            = Except.ok s →
        assemble s.utxos toAddr (if compounding then s.amount else amount) fee
            nextAddr = Except.error e →
        composeTx select collect assemble toAddr amount fee none nextAddr
            compounding maxCount
          = (Except.error e, [ChainOp.nextOp, ChainOp.reverseOp])) := by
  constructor
  · intro e hsel
    simp only [composeTx, hsel]
  · intro s e hsel hasm
    simp only [composeTx, hsel, jsTruthy, Bool.not_false, if_true, hasm]
    rfl

/-- Witness for C5: with a succeeding selection and a failing assembly the
trace is exactly [next, reverse] and the assembly error propagates. -/
theorem composeTx_reverse_on_failure_witness :
    composeTx (U := Unit) (T := Unit)
        (fun _ => Except.ok { utxos := [], utxoIds := [], amount := 0, mass := 0 })
        (fun _ => Except.ok { utxos := [], utxoIds := [], amount := 0, mass := 0 })
        (fun _ _ _ _ _ => Except.error ("sign failed"))
        ("kaspatest:dest") 5 1 none ("kaspatest:next") false 0
      = (Except.error ("sign failed"), [ChainOp.nextOp, ChainOp.reverseOp]) :=
  (composeTx_reverse_on_failure
      (fun _ => Except.ok { utxos := [], utxoIds := [], amount := 0, mass := 0 })
      (fun _ => Except.ok { utxos := [], utxoIds := [], amount := 0, mass := 0 })
      (fun _ _ _ _ _ => Except.error ("sign failed"))
      ("kaspatest:dest") 5 1 ("kaspatest:next") false 0).2
    { utxos := [], utxoIds := [], amount := 0, mass := 0 } ("sign failed") rfl rfl

/-- C9 (amended). When changeAddrOverride is supplied and truthy (a
non-empty string), composeTx never touches the change-address chain:
the trace of next/reverse calls is empty whether the composition
succeeds or throws. (The source tests JavaScript truthiness, not mere
presence, so an empty-string override still burns the change index -
see the counterexample.) -/
theorem composeTx_override_frame {U T : Type}
    (select : Int → Except String (SelRes U))
    (collect : Nat → Except String (SelRes U))
    (assemble : List U → String → Int → Int → String → Except String T)
    (toAddr : String) (amount fee : Int) (a nextAddr : String)
    (compounding : Bool) (maxCount : Nat) (ha : a ≠ "") :
    (composeTx select collect assemble toAddr amount fee (some a) nextAddr
        compounding maxCount).2 = [] := by
  unfold composeTx
  have htr : jsTruthy (some a) = true := by
    simp [jsTruthy, ha]
  cases hsel : (if compounding then collect maxCount else select (amount + fee)) with
  | error e => rfl
  | ok s =>
    simp only [htr, Bool.not_true]
    split <;> simp

/-- Witness for C9: a truthy override leaves the change chain untouched. -/
theorem composeTx_override_frame_witness :
    (composeTx (U := Unit) (T := Unit)
        (fun _ => Except.ok { utxos := [], utxoIds := [], amount := 0, mass := 0 })
        (fun _ => Except.ok { utxos := [], utxoIds := [], amount := 0, mass := 0 })
        (fun _ _ _ _ _ => Except.error ("sign failed"))
        ("kaspatest:dest") 5 1 (some ("kaspatest:override")) ("kaspatest:next")
        false 0).2 = [] :=
  composeTx_override_frame
    (fun _ => Except.ok { utxos := [], utxoIds := [], amount := 0, mass := 0 })
    (fun _ => Except.ok { utxos := [], utxoIds := [], amount := 0, mass := 0 })
    (fun _ _ _ _ _ => Except.error ("sign failed"))
    ("kaspatest:dest") 5 1 ("kaspatest:override") ("kaspatest:next") false 0
    (by decide)

/-- Counterexample for C9 as stated: supplying the (falsy) empty string as
changeAddrOverride does not shield the change chain - the source
tests truthiness, so changeAddress.next() is still called (and
reverse() on failure). -/
theorem composeTx_override_empty_cex :
    (composeTx (U := Unit) (T := Unit)
        (fun _ => Except.ok { utxos := [], utxoIds := [], amount := 0, mass := 0 })
        (fun _ => Except.ok { utxos := [], utxoIds := [], amount := 0, mass := 0 })
        (fun _ _ _ _ _ => Except.ok ())
        ("kaspatest:dest") 5 1 (some "") ("kaspatest:next") false 0).2
      = [ChainOp.nextOp]
    ∧ [ChainOp.nextOp] ≠ ([] : List ChainOp) := by
  refine ⟨by decide, by decide⟩

/-- Helper for C10: flDouble is the identity on magnitudes up to 2^53. -/
theorem flDouble_of_abs_le (x : Int) (h : x.natAbs ≤ twoPow53) :
    flDouble x = x := by
  simp only [flDouble]
  rw [if_pos h]

/-- C10 (amended). composeTx applies parseInt to both amount and fee
before UTXO selection and targets parseInt(amount) + parseInt(fee)
under JavaScript double arithmetic: integral numbers in the safe
range (operands and sum of magnitude at most 2^53) pass through and
are summed exactly, plain decimal strings are truncated to their
integer part, but a numeric string in exponential notation is parsed
only up to its leading integer digits (see the counterexample), and
beyond 2^53 the double sum rounds - amount 10^16 with fee 1 targets
10^16, as 1e16 + 1 === 1e16. No error is raised for non-integer or
unsafely large amounts - the safe-integer check of the source is
commented out. -/
theorem composeTx_parseInt_target :
    (∀ a f : Int, a.natAbs ≤ twoPow53 → f.natAbs ≤ twoPow53 →
        (a + f).natAbs ≤ twoPow53 →
        composeTxSelectionTarget (JSVal.num a) (JSVal.num f) = some (a + f))
    ∧ composeTxSelectionTarget (JSVal.str ("12.75")) (JSVal.str ("3.9"))
        = some 15
    ∧ composeTxSelectionTarget (JSVal.str ("-12.75")) (JSVal.num 2)
        = some (-10)
    ∧ composeTxSelectionTarget (JSVal.num 10000000000000000) (JSVal.num 1)
        = some 10000000000000000 := by
  refine ⟨?_, by decide, by decide, by decide⟩
  intro a f ha hf hs
  simp only [composeTxSelectionTarget, jsParseInt]
  rw [flDouble_of_abs_le a ha, flDouble_of_abs_le f hf]
  simp only [jsAdd]
  rw [flDouble_of_abs_le _ hs]

/-- Witness for C10: the safe-range integral-number clause at 5 and 7. -/
theorem composeTx_parseInt_target_witness :
    composeTxSelectionTarget (JSVal.num 5) (JSVal.num 7) = some 12 :=
  composeTx_parseInt_target.1 5 7 (by decide) (by decide) (by decide)

/-- Counterexample for C10 as stated. For the numeric-string amount "2e3"
(numeric value 2000) parseInt keeps only the leading digits, so the
selection target is 2, not the truncation 2000 the claim predicts. -/
theorem composeTx_parseInt_exponent_cex :
    composeTxSelectionTarget (JSVal.str ("2e3")) (JSVal.num 0) = some 2
    ∧ (2 : Int) ≠ 2000 := by
  refine ⟨by decide, by decide⟩

/-- Helper for C3: every terminating ok-exit of the fee-convergence loop
satisfies dataFee = txSize * defaultFee and fee ≥ dataFee +
priorityFee, because the loop only stops without throwing once the
fee it set covers the recomputed data fee plus the priority fee. -/
theorem feeLoop_ok_fee_covers
    (compose : Bool → Int → Int → Option ComposeRes) (defaultFee : Int)
    (skipSign inclusiveFee : Bool) (networkFeeMax priorityFee txAmount : Int) :
    ∀ fuel amountCur dataFee r,
      feeLoop compose defaultFee skipSign inclusiveFee networkFeeMax priorityFee
          txAmount fuel amountCur dataFee = some (Except.ok r) →
      r.dataFee = r.txSize * defaultFee ∧ r.fee ≥ r.dataFee + priorityFee := by
  intro fuel
  induction fuel with
  | zero =>
    intro amountCur dataFee r h
    simp [feeLoop] at h
  | succ fuel ih =>
    intro amountCur dataFee r h
    simp only [feeLoop] at h
    cases hcomp : compose false
        (if inclusiveFee then txAmount - (priorityFee + dataFee) else amountCur)
        (priorityFee + dataFee) with
    | none =>
      rw [hcomp] at h
      simp at h
    | some d =>
      rw [hcomp] at h
      dsimp only at h
      by_cases hcont : (networkFeeMax = 0 ∨ priorityFee + dataFee ≤ networkFeeMax)
          ∧ priorityFee + dataFee
              < calibratedSize skipSign d * defaultFee + priorityFee
      · rw [if_pos hcont] at h
        exact ih _ _ _ h
      · rw [if_neg hcont] at h
        by_cases hmax : networkFeeMax ≠ 0 ∧ priorityFee + dataFee > networkFeeMax
        · rw [if_pos hmax] at h
          simp at h
        · rw [if_neg hmax] at h
          simp only [Option.some.injEq, Except.ok.injEq] at h
          subst h
          refine ⟨rfl, ?_⟩
          have hA : networkFeeMax = 0 ∨ priorityFee + dataFee ≤ networkFeeMax := by
            by_cases h0 : networkFeeMax = 0
            · exact Or.inl h0
            · refine Or.inr ?_
              by_contra hgt
              exact hmax ⟨h0, by omega⟩
          have hB : ¬(priorityFee + dataFee
              < calibratedSize skipSign d * defaultFee + priorityFee) :=
            fun hlt => hcont ⟨hA, hlt⟩
          simp only [ge_iff_le]
          omega

/-- C3 (confirmed). Every call to estimateTransaction with
calculateNetworkFee enabled that returns without throwing has run the
fee-convergence loop to completion, and the returned data satisfies
fee ≥ txSize * defaultFee + priorityFee, where txSize is the
calibrated serialized size of the finally composed transaction and
priorityFee is the caller-supplied fee. -/
theorem estimateTransaction_fee_covers_size
    (compose : Bool → Int → Int → Option ComposeRes) (defaultFee : Int)
    (fuel : Nat) (p : EstimateParams) (r : EstimateOut)
    (hcalc : p.calculateNetworkFee = true)
    (h : estimateTransaction compose defaultFee fuel p = some (Except.ok r)) :
    r.fee ≥ r.txSize * defaultFee + p.fee
    ∧ r.dataFee = r.txSize * defaultFee := by
  simp only [estimateTransaction, hcalc, Bool.true_or] at h
  cases hcomp : compose p.compounding p.amount p.fee with
  | none =>
    rw [hcomp] at h
    simp at h
  | some d0 =>
    rw [hcomp] at h
    dsimp only at h
    by_cases hpre : p.networkFeeMax ≠ 0
        ∧ calibratedSize p.skipSign d0 * defaultFee > p.networkFeeMax
    · rw [if_pos hpre] at h
      simp at h
    · rw [if_neg hpre] at h
      rw [if_pos trivial] at h
      have := feeLoop_ok_fee_covers compose defaultFee p.skipSign
        (p.inclusiveFee || p.compounding) p.networkFeeMax p.fee
        (if p.compounding then d0.amount else p.amount) fuel
        (if p.compounding then d0.amount else p.amount)
        (calibratedSize p.skipSign d0 * defaultFee) r h
      refine ⟨?_, this.1⟩
      have h2 := this.2
      rw [this.1] at h2
      exact h2

/-- Witness for C3: a constant composition of raw size 100 with one input
converges in one pass to fee 251 = 251 * 1 + 0. -/
theorem estimateTransaction_fee_covers_size_witness :
    (251 : Int) ≥ 251 * 1 + 0 ∧ (251 : Int) = 251 * 1 :=
  estimateTransaction_fee_covers_size
    (fun _ a _ => some { amount := a, rawSize := 100, numInputs := 1 }) 1 5
    { amount := 1000, fee := 0, networkFeeMax := 0, calculateNetworkFee := true,
      inclusiveFee := false, compounding := false, skipSign := true }
    { fee := 251, amount := 1000, txSize := 251, dataFee := 251,
      totalAmount := 1251, numInputs := 1 }
    rfl (by rfl)

/-- C7 (amended). With calculateNetworkFee disabled and no compounding,
estimateTransaction skips the convergence loop; provided the first
composition succeeds and the networkFeeMax pre-check does not fire
(networkFeeMax unset, or the data fee within it), it throws the
minimum-fee-required error exactly when the calibrated dataFee
exceeds the caller-supplied priority fee, and otherwise returns the
composed estimate (recomposed once with the fee deducted from the
amount when inclusiveFee is set, provided that recomposition
succeeds). Without the pre-check proviso the claim fails - see the
counterexample. -/
theorem estimateTransaction_min_fee
    (compose : Bool → Int → Int → Option ComposeRes) (defaultFee : Int)
    (fuel : Nat) (p : EstimateParams) (d0 : ComposeRes)
    (hcalc : p.calculateNetworkFee = false) (hcomp : p.compounding = false)
    (h0 : compose false p.amount p.fee = some d0)
    (hmax : p.networkFeeMax = 0
      ∨ calibratedSize p.skipSign d0 * defaultFee ≤ p.networkFeeMax) :
    (estimateTransaction compose defaultFee fuel p
        = some (Except.error TxError.minimumFeeRequired)
      ↔ calibratedSize p.skipSign d0 * defaultFee > p.fee)
    ∧ (calibratedSize p.skipSign d0 * defaultFee ≤ p.fee →
        p.inclusiveFee = false →
        estimateTransaction compose defaultFee fuel p
          = some (Except.ok
              { fee := p.fee, amount := p.amount,
                txSize := calibratedSize p.skipSign d0,
                dataFee := calibratedSize p.skipSign d0 * defaultFee,
                totalAmount := p.fee + p.amount, numInputs := d0.numInputs }))
    ∧ (calibratedSize p.skipSign d0 * defaultFee ≤ p.fee →
        p.inclusiveFee = true →
        ∀ d1, compose false (p.amount - p.fee) p.fee = some d1 →
        estimateTransaction compose defaultFee fuel p
          = some (Except.ok
              { fee := p.fee, amount := p.amount - p.fee,
                txSize := calibratedSize p.skipSign d0,
                dataFee := calibratedSize p.skipSign d0 * defaultFee,
                totalAmount := p.fee + (p.amount - p.fee),
                numInputs := d1.numInputs })) := by
  have hpre : ¬(p.networkFeeMax ≠ 0
      ∧ calibratedSize p.skipSign d0 * defaultFee > p.networkFeeMax) := by
    rcases hmax with hm | hm
    · intro hc
      exact hc.1 hm
    · intro hc
      omega
  have hmain : estimateTransaction compose defaultFee fuel p =
      (if calibratedSize p.skipSign d0 * defaultFee > p.fee then
        some (Except.error TxError.minimumFeeRequired)
      else if p.inclusiveFee then
        (match compose false (p.amount - p.fee) p.fee with
          | none => some (Except.error TxError.composeFailed)
          | some d1 =>
            some (Except.ok
              { fee := p.fee, amount := p.amount - p.fee,
                txSize := calibratedSize p.skipSign d0,
                dataFee := calibratedSize p.skipSign d0 * defaultFee,
                totalAmount := p.fee + (p.amount - p.fee),
                numInputs := d1.numInputs }))
      else
        some (Except.ok
          { fee := p.fee, amount := p.amount,
            txSize := calibratedSize p.skipSign d0,
            dataFee := calibratedSize p.skipSign d0 * defaultFee,
            totalAmount := p.fee + p.amount, numInputs := d0.numInputs })) := by
    simp only [estimateTransaction, hcalc, hcomp, h0]
    rw [if_neg hpre]
    simp
  refine ⟨?_, ?_, ?_⟩
  · constructor
    · intro h
      by_contra hgt
      rw [hmain, if_neg hgt] at h
      cases hinc : p.inclusiveFee with
      | false =>
        rw [hinc] at h
        simp at h
      | true =>
        rw [hinc] at h
        simp only [if_true] at h
        cases h1 : compose false (p.amount - p.fee) p.fee with
        | none =>
          rw [h1] at h
          simp at h
        | some d1 =>
          rw [h1] at h
          simp at h
    · intro hgt
      rw [hmain, if_pos hgt]
  · intro hle hinc
    rw [hmain, if_neg (by omega), hinc]
    simp
  · intro hle hinc d1 h1
    rw [hmain, if_neg (by omega), hinc]
    simp only [if_true]
    rw [h1]

/-- Witness for C7: with the pre-check disarmed (networkFeeMax = 0),
dataFee 251 below priority fee 1000, the composed estimate is
returned. -/
theorem estimateTransaction_min_fee_witness :
    estimateTransaction
        (fun _ a _ => some { amount := a, rawSize := 100, numInputs := 1 }) 1 1
        { amount := 500, fee := 1000, networkFeeMax := 0,
          calculateNetworkFee := false, inclusiveFee := false,
          compounding := false, skipSign := true }
      = some (Except.ok
          { fee := 1000, amount := 500, txSize := 251, dataFee := 251,
            totalAmount := 1500, numInputs := 1 }) :=
  (estimateTransaction_min_fee
      (fun _ a _ => some { amount := a, rawSize := 100, numInputs := 1 }) 1 1
      { amount := 500, fee := 1000, networkFeeMax := 0,
        calculateNetworkFee := false, inclusiveFee := false,
        compounding := false, skipSign := true }
      { amount := 500, rawSize := 100, numInputs := 1 }
      rfl rfl rfl (Or.inl rfl)).2.1 (by decide) rfl

/-- Counterexample for C7 as stated. With calculateNetworkFee disabled,
networkFeeMax = 100, priority fee 1000, and a composed data fee of
251 ≤ 1000, the claim says the composed estimate is returned; the
source instead throws the fee-max pre-check error before ever testing
dataFee against the priority fee. -/
theorem estimateTransaction_min_fee_cex :
    estimateTransaction
        (fun _ a _ => some { amount := a, rawSize := 100, numInputs := 1 }) 1 1
        { amount := 500, fee := 1000, networkFeeMax := 100,
          calculateNetworkFee := false, inclusiveFee := false,
          compounding := false, skipSign := true }
      = some (Except.error TxError.feeMaxPreCheck)
    ∧ calibratedSize true { amount := 500, rawSize := 100, numInputs := 1 } * 1
        ≤ 1000
    ∧ TxError.feeMaxPreCheck ≠ TxError.minimumFeeRequired := by
  refine ⟨by rfl, by decide, by decide⟩

/-- C6 (confirmed). buildTransaction throws the size/mass-limit error if
and only if the signed transaction mass exceeds
MaxMassAcceptedByBlock = 500000, and otherwise returns the
transaction converted to the RPC wire shape: mapped inputs and
outputs, lockTime, the all-zero payloadHash, the subnetwork id and
the fee. -/
theorem buildTransaction_mass_limit (snid : String) (tx : SignedTxM) (fee : Int) :
    (buildTransaction snid tx fee = Except.error TxError.massLimit
        ↔ tx.mass > MaxMassAcceptedByBlock)
    ∧ MaxMassAcceptedByBlock = 500000
    ∧ (tx.mass ≤ MaxMassAcceptedByBlock →
        buildTransaction snid tx fee = Except.ok
          { version := tx.version, inputs := tx.inputs.map toRpcInput,
            outputs := tx.outputs.map toRpcOutput, lockTime := tx.nLockTime,
            payloadHash := zeroPayloadHash, subnetworkId := snid, fee := fee }) := by
  unfold buildTransaction
  refine ⟨?_, rfl, ?_⟩
  · by_cases hm : tx.mass > MaxMassAcceptedByBlock
    · simp [hm]
    · rw [if_neg hm]
      simp [hm]
  · intro hle
    rw [if_neg (by omega)]

/-- Witness for C6: a signed transaction of mass 1 converts to the wire
shape. -/
theorem buildTransaction_mass_limit_witness :
    buildTransaction ("0000000000000000000000000000000000000000")
        { version := 0, inputs := [], outputs := [], nLockTime := 0, mass := 1 } 5
      = Except.ok
          { version := 0, inputs := [], outputs := [], lockTime := 0,
            payloadHash := zeroPayloadHash,
            subnetworkId := "0000000000000000000000000000000000000000",
            fee := 5 } :=
  (buildTransaction_mass_limit ("0000000000000000000000000000000000000000")
      { version := 0, inputs := [], outputs := [], nLockTime := 0, mass := 1 }
      5).2.2 (by decide)

/-- C4 (confirmed). submitTransaction returns null on a falsy txid from
the RPC, leaving inUse and the TXStore unchanged; only on a truthy
txid does it push the spent outpoints onto utxoSet.inUse, append the
record (with the blueScore snapshot) to the TXStore, and emit
state-update (after debug-info); an RPC error propagates with the
state untouched. -/
theorem submitTransaction_effects
    (rpcSubmit : Except String (Option String)) (utxoIds : List String)
    (amount : Int) (toAddr note : String) (blueScore : Int)
    (isOurAddress : Bool) (st : WalletTxState) :
    (rpcSubmit = Except.ok none →
        submitTransaction rpcSubmit utxoIds amount toAddr note blueScore
            isOurAddress st
          = Except.ok (none, st))
    ∧ (rpcSubmit = Except.ok (some "") →
        submitTransaction rpcSubmit utxoIds amount toAddr note blueScore
            isOurAddress st
          = Except.ok (none, st))
    ∧ (∀ t, t ≠ "" → rpcSubmit = Except.ok (some t) →
        submitTransaction rpcSubmit utxoIds amount toAddr note blueScore
            isOurAddress st
          = Except.ok (some t,
              { inUse := st.inUse ++ utxoIds,
                txStore := st.txStore ++
                  [{ isIncoming := false, id := t, amount := amount,
                     address := toAddr, note := note, blueScore := blueScore,
                     myAddress := isOurAddress }],
                events := st.events ++ [("debug-info"), ("state-update")] }))
    ∧ (∀ e, rpcSubmit = Except.error e →
        submitTransaction rpcSubmit utxoIds amount toAddr note blueScore
            isOurAddress st
          = Except.error e) := by
  refine ⟨?_, ?_, ?_, ?_⟩
  · intro h
    subst h
    rfl
  · intro h
    subst h
    rfl
  · intro t ht h
    subst h
    simp [submitTransaction, jsTruthy, ht]
  · intro e h
    subst h
    rfl

/-- Witness for C4: a truthy txid pushes the outpoints, appends the
record and emits the events. -/
theorem submitTransaction_effects_witness :
    submitTransaction (Except.ok (some ("abc"))) [("t0:1")] 7 ("kaspa:to")
        ("note") 99 false { inUse := [], txStore := [], events := [] }
      = Except.ok (some ("abc"),
          { inUse := [("t0:1")],
            txStore :=
              [{ isIncoming := false, id := "abc", amount := 7,
                 address := "kaspa:to", note := "note", blueScore := 99,
                 myAddress := false }],
            events := [("debug-info"), ("state-update")] }) :=
  (submitTransaction_effects (Except.ok (some ("abc"))) [("t0:1")] 7
      ("kaspa:to") ("note") 99 false
      { inUse := [], txStore := [], events := [] }).2.2.1 ("abc")
    (by decide) rfl

/-- C8 (confirmed). sync throws "Wallet sync process already running."
exactly when the stored flag records a previously started continuous
sync (this.syncOnce strictly equal to false) and the effective
request - the argument, defaulted to options.syncOnce when absent -
is one-shot; an effective request for a continuous sync never
triggers the error. -/
theorem sync_concurrent_guard (optionsSyncOnce : Bool) (req : Option Bool)
    (st : SyncFlags) :
    (sync optionsSyncOnce req st = Except.error syncAlreadyRunningMsg
        ↔ st.syncOnce = some false ∧ req.getD optionsSyncOnce = true)
    ∧ (req.getD optionsSyncOnce = false →
        sync optionsSyncOnce req st = Except.ok { syncOnce := some false }) := by
  unfold sync
  constructor
  · by_cases hc : st.syncOnce = some false ∧ req.getD optionsSyncOnce = true
    · simp [hc]
    · rw [if_neg hc]
      simp [hc]
  · intro h
    rw [if_neg (by simp [h]), h]

/-- Witness for C8: after a continuous sync, another continuous request
does not throw. -/
theorem sync_concurrent_guard_witness :
    sync true (some false) { syncOnce := some false }
      = Except.ok { syncOnce := some false } :=
  (sync_concurrent_guard true (some false) { syncOnce := some false }).2 rfl

end KaspaWallet
